import Mathlib

/-!
A shallow embedding of the survey service in `src/main.py` (FastAPI + SQLAlchemy
over SQLite) and proofs about its scoring and store semantics.

Modelling conventions:
* JSON values (Python objects produced by `json.loads` or by pydantic `Any`
  fields parsed from a JSON body) are modelled by the mutual inductive
  `JValue` / `JList` / `JObj`.  JSON numbers are modelled as integers (`Int`);
  no claim involves non-integer numerics.  JSON objects have string keys and,
  as produced by `json.loads` and by request parsing, no duplicate keys.
* Python `==` on such values is modelled by `pyEqV` below; note that in Python
  `True == 1` and `False == 0` (bool is a subclass of int), and `dict`
  equality is a length check plus a per-key comparison.
* Fallible Python code (expressions that can raise `TypeError` /
  `AttributeError`, and HTTP handlers that can fail) is modelled with
  `Except`.
* `datetime` timestamps are not modelled (real time); no claim depends on
  them.  `json.dumps` followed by `json.loads` is the identity on the values
  modelled here, so text columns that store serialized JSON are modelled by
  the structured value itself (`Option` for nullable columns).
-/

set_option autoImplicit false

namespace AlmaMater

mutual
/-- JSON values as they appear in Python after `json.loads` (or as parsed into
a pydantic `Any` field): `None`, `bool`, `int`, `str`, `list`, `dict`. -/
inductive JValue : Type where
  | null : JValue
  | bool : Bool → JValue
  | num : Int → JValue
  | str : String → JValue
  | arr : JList → JValue
  | obj : JObj → JValue

inductive JList : Type where
  | nil : JList
  | cons : JValue → JList → JList

inductive JObj : Type where
  | nil : JObj
  | cons : String → JValue → JObj → JObj
end

namespace JList

/-- View a `JList` as a Lean list of values. -/
def toList : JList → List JValue
  | .nil => []
  | .cons x xs => x :: xs.toList

end JList

namespace JObj

/-- The keys of a JSON object, in insertion order (models iterating a Python
`dict`). -/
def keys : JObj → List String
  | .nil => []
  | .cons k _ rest => k :: rest.keys

/-- Number of entries of a JSON object (models Python `len(dict)`). -/
def length : JObj → Nat
  | .nil => 0
  | .cons _ _ rest => rest.length + 1

/-- Look up a key in a JSON object (models Python `dict[k]` / `dict.get(k)`
key lookup; JSON objects have no duplicate keys). -/
def findVal : JObj → String → Option JValue
  | .nil, _ => none
  | .cons k v rest, k' => if k == k' then some v else rest.findVal k'

end JObj

/-- The entries of a JSON object, in insertion order (models Python
`dict.items()`). -/
def JObj.toList : JObj → List (String × JValue)
  | .nil => []
  | .cons k v rest => (k, v) :: rest.toList

/-- `isinstance(v, list)` (the test on line 160 of `src/main.py`). -/
def JValue.isList : JValue → Bool
  | .arr _ => true
  | _ => false

/-- A non-container JSON value: `None`, `bool`, `int` or `str`.  Exactly
these values are hashable in Python (lists and dicts are unhashable). -/
def JValue.isScalar : JValue → Bool
  | .null => true
  | .bool _ => true
  | .num _ => true
  | .str _ => true
  | .arr _ => false
  | .obj _ => false

mutual
/-- Python `==` on JSON values.  `True == 1` and `False == 0` because Python
`bool` is a subclass of `int`; lists compare pointwise; dicts compare by
length plus per-key value comparison (exactly CPython's `dict.__eq__`). -/
def pyEqV : JValue → JValue → Bool
  | .null, .null => true
  | .bool a, .bool b => a == b
  | .bool a, .num n => (if a then (1 : Int) else 0) == n
  | .num n, .bool b => n == (if b then (1 : Int) else 0)
  | .num a, .num b => a == b
  | .str a, .str b => a == b
  | .arr xs, .arr ys => pyEqL xs ys
  | .obj a, .obj b => a.length == b.length && pyEqO a b
  | _, _ => false

def pyEqL : JList → JList → Bool
  | .nil, .nil => true
  | .cons x xs, .cons y ys => pyEqV x y && pyEqL xs ys
  | _, _ => false

def pyEqO : JObj → JObj → Bool
  | .nil, _ => true
  | .cons k v rest, b =>
    (match b.findVal k with
     | some w => pyEqV v w
     | none => false) && pyEqO rest b
end

mutual
/-- Structural equality of parsed JSON values: equal kind and equal content,
with no cross-type identification at all.  This is the "exact equality
including type" the specification describes for scalar answer comparison; it
is compared against the source's Python `==` (`pyEqV`). -/
def jeqV : JValue → JValue → Bool
  | .null, .null => true
  | .bool a, .bool b => a == b
  | .num a, .num b => a == b
  | .str a, .str b => a == b
  | .arr xs, .arr ys => jeqL xs ys
  | .obj a, .obj b => jeqO a b
  | _, _ => false

def jeqL : JList → JList → Bool
  | .nil, .nil => true
  | .cons x xs, .cons y ys => jeqV x y && jeqL xs ys
  | _, _ => false

def jeqO : JObj → JObj → Bool
  | .nil, .nil => true
  | .cons k v rest, .cons k' v' rest' => k == k' && jeqV v v' && jeqO rest rest'
  | _, _ => false
end

/-- Exceptions the scoring code in `submit_response` can raise: `TypeError`
(from `set(...)` on a non-iterable or on unhashable elements) and
`AttributeError` (from `.get` on a non-dict, or `.items()` on a non-dict). -/
inductive PyErr : Type where
  | typeError : PyErr
  | attributeError : PyErr
deriving DecidableEq

/-- Python `user.get(k, dflt)` where `user` is an arbitrary parsed JSON value:
raises `AttributeError` unless `user` is a dict (only `dict` has `.get`). -/
def pyGetD (user : JValue) (k : String) (dflt : JValue) : Except PyErr JValue :=
  match user with
  | .obj kvs => .ok ((kvs.findVal k).getD dflt)
  | _ => .error .attributeError

/-- Python `set(x)` on a parsed JSON value, returned as the list of member
values (deduplication is irrelevant because set equality is modelled
extensionally below).  `set` of a list requires every element hashable
(`TypeError` otherwise); `set` of a string is its one-character substrings;
`set` of a dict is its keys; `None`/`bool`/`int` are not iterable
(`TypeError`). -/
def pySet : JValue → Except PyErr (List JValue)
  | .arr xs => if xs.toList.all JValue.isScalar then .ok xs.toList else .error .typeError
  | .str s => .ok (s.data.map fun c => .str (String.singleton c))
  | .obj kvs => .ok (kvs.keys.map .str)
  | _ => .error .typeError

/-- Python set equality on the member lists produced by `pySet`: two sets are
equal iff they have the same members under Python `==` (set membership and
deduplication both go through `==`/`hash`, which agree on hashable values). -/
def pySetEq (a b : List JValue) : Bool :=
  a.all (fun x => b.any (fun y => pyEqV x y)) && b.all (fun y => a.any (fun x => pyEqV x y))

/-- One iteration of the scoring loop in `submit_response`
(`src/main.py` lines 160–165): given the submitted answers `user` and one
answer-key entry `(k, v)`, decide whether the entry matches.
If `isinstance(v, list)`: `set(user.get(k, [])) == set(v)`;
otherwise: `user.get(k) == v` (a missing key yields `None`). -/
def scoreEntry (user : JValue) (k : String) (v : JValue) : Except PyErr Bool :=
  match v with
  | .arr vs =>
    match pyGetD user k (.arr .nil) with
    | .error e => .error e
    | .ok sub =>
      match pySet sub with
      | .error e => .error e
      | .ok s1 =>
        match pySet (.arr vs) with
        | .error e => .error e
        | .ok s2 => .ok (pySetEq s1 s2)
  | _ =>
    match pyGetD user k .null with
    | .error e => .error e
    | .ok sub => .ok (pyEqV sub v)

/-- The scoring loop of `submit_response` (`src/main.py` lines 156–165):
folds `scoreEntry` over the answer-key entries, counting matches in the first
component and incrementing `total` in the second.  An exception raised at any
entry aborts the whole computation (the handler then fails). -/
def scoreLoop (user : JValue) : JObj → Except PyErr (Nat × Nat)
  | .nil => .ok (0, 0)
  | .cons k v rest =>
    match scoreEntry user k v with
    | .error e => .error e
    | .ok m =>
      match scoreLoop user rest with
      | .error e => .error e
      | .ok (s, t) => .ok ((if m then s + 1 else s), t + 1)

/-- Score calculation against a parsed answer key (`correct.items()` requires
`correct` to be a dict; `AttributeError` otherwise). -/
def scoreAnswers (correct user : JValue) : Except PyErr (Nat × Nat) :=
  match correct with
  | .obj kvs => scoreLoop user kvs
  | _ => .error .attributeError

/-- Second definition following the spec's words for claim C2, to be compared
with the source's behaviour: a scalar answer-key entry matches iff "the
submitted value for that key is exactly equal to the expected value" with
"exact equality (including type)", and "a missing submitted key counts as a
non-match". -/
def specScalarMatch (user : JObj) (k : String) (v : JValue) : Bool :=
  match user.findVal k with
  | some w => jeqV w v
  | none => false

/-- Pydantic schema `Question` (`src/main.py` lines 51–54). -/
structure Question : Type where
  text : String
  type : String
  options : Option (List String)
deriving DecidableEq

/-- Pydantic schema `SurveyCreate` (`src/main.py` lines 56–60).  It is the
request body of both `POST /surveys/` and `PUT /surveys/{id}`; note that it
does include a `correct_answers` field (`Optional[Any]`, default `None`). -/
structure SurveyCreate : Type where
  title : String
  description : Option String
  questions : List Question
  correct_answers : Option JValue

/-- Pydantic schema `SurveyOut` (`src/main.py` lines 62–69);
`correct_answers` defaults to `None` when a handler omits it. -/
structure SurveyOut : Type where
  id : Nat
  title : String
  description : Option String
  questions : List Question
  correct_answers : Option JValue

/-- Pydantic schema `ResponseCreate` (`src/main.py` lines 71–73). -/
structure ResponseCreate : Type where
  answers : JValue
  student_name : Option String

/-- SQLAlchemy model `Survey` (`src/main.py` lines 30–37).  The `questions`
and `correct_answers` columns store JSON text; since `json.dumps` /
`json.loads` round-trip the values modelled here, the columns are modelled by
the structured values.  `correct_answers` is nullable; when present it is the
parse of the stored string, which `json.dumps` makes non-empty, so the Python
truthiness test `if survey.correct_answers:` on the stored string is exactly
`isSome` on this field. -/
structure Survey : Type where
  id : Nat
  title : String
  description : Option String
  questions : List Question
  correct_answers : Option JValue

/-- SQLAlchemy model `Response` (`src/main.py` lines 39–46).  The
`survey_id` foreign-key column is nullable (no `nullable=False`), which
matters on survey deletion.  The `timestamp` column is not modelled. -/
structure Response : Type where
  id : Nat
  survey_id : Option Nat
  answers : JValue
  student_name : Option String

/-- The SQLite database state: the two tables plus the autoincrement
counters for their integer primary keys. -/
structure Store : Type where
  surveys : List Survey
  responses : List Response
  nextSurveyId : Nat
  nextResponseId : Nat

/-- How an HTTP handler can fail: `HTTPException(404)` raised explicitly, or
an uncaught Python exception from the scoring code (a 500 at the HTTP
layer). -/
inductive HErr : Type where
  | notFound : HErr
  | pyError : PyErr → HErr
deriving DecidableEq

/-- The JSON body returned by `submit_response` (`src/main.py` lines
167–175), minus the unmodelled timestamp. -/
structure SubmitOut : Type where
  id : Nat
  survey_id : Option Nat
  answers : JValue
  student_name : Option String
  score : Option Nat
  total : Option Nat

/-- Render a stored survey as the `SurveyOut` built by the read handlers:
they re-parse the stored JSON text, which is the identity here. -/
def Survey.toOut (s : Survey) : SurveyOut :=
  { id := s.id, title := s.title, description := s.description,
    questions := s.questions, correct_answers := s.correct_answers }

/-- `db.query(Survey).filter(Survey.id == survey_id).first()`. -/
def Store.findSurvey (st : Store) (survey_id : Nat) : Option Survey :=
  st.surveys.find? (fun s => s.id == survey_id)

/-- `POST /surveys/` (`src/main.py` lines 92–109): inserts a survey with a
fresh id and returns it re-read from the stored (serialized) columns. -/
def create_survey (st : Store) (survey : SurveyCreate) : SurveyOut × Store :=
  let db_survey : Survey :=
    { id := st.nextSurveyId, title := survey.title,
      description := survey.description, questions := survey.questions,
      correct_answers := survey.correct_answers }
  (db_survey.toOut,
   { st with surveys := st.surveys ++ [db_survey],
             nextSurveyId := st.nextSurveyId + 1 })

/-- `GET /surveys/{survey_id}` (`src/main.py` lines 124–135). -/
def get_survey (st : Store) (survey_id : Nat) : Except HErr SurveyOut :=
  match st.findSurvey survey_id with
  | none => .error .notFound
  | some survey => .ok survey.toOut

/-- `POST /surveys/{survey_id}/responses` (`src/main.py` lines 137–175).
The handler first checks the survey exists (404 otherwise, nothing written),
then inserts and **commits** the response, and only then runs the score
calculation; a scoring exception therefore escapes after the commit, leaving
the response persisted. -/
def submit_response (st : Store) (survey_id : Nat) (response : ResponseCreate) :
    Except HErr SubmitOut × Store :=
  match st.findSurvey survey_id with
  | none => (.error .notFound, st)
  | some survey =>
    let db_response : Response :=
      { id := st.nextResponseId, survey_id := some survey_id,
        answers := response.answers, student_name := response.student_name }
    let st' : Store :=
      { st with responses := st.responses ++ [db_response],
                nextResponseId := st.nextResponseId + 1 }
    match survey.correct_answers with
    | none =>
      (.ok { id := db_response.id, survey_id := db_response.survey_id,
             answers := db_response.answers,
             student_name := db_response.student_name,
             score := none, total := none }, st')
    | some correct =>
      match scoreAnswers correct response.answers with
      | .error e => (.error (.pyError e), st')
      | .ok (s, t) =>
        (.ok { id := db_response.id, survey_id := db_response.survey_id,
               answers := db_response.answers,
               student_name := db_response.student_name,
               score := some s, total := some t }, st')

/-- `DELETE /surveys/{survey_id}` (`src/main.py` lines 177–184).
`db.delete(survey)` removes the survey row; the `responses` relationship has
no delete cascade configured, so SQLAlchemy's default behaviour applies: the
dependent rows are not deleted, their nullable `survey_id` foreign key is set
to `NULL`. -/
def delete_survey (st : Store) (survey_id : Nat) : Except HErr Unit × Store :=
  match st.findSurvey survey_id with
  | none => (.error .notFound, st)
  | some _ =>
    (.ok (),
     { st with
       surveys := st.surveys.filter (fun s => !(s.id == survey_id)),
       responses := st.responses.map (fun r =>
         if r.survey_id == some survey_id then { r with survey_id := none } else r) })

/-- `PUT /surveys/{survey_id}` (`src/main.py` lines 186–201): replaces
`title`, `description` and `questions` of the matching row; the
`correct_answers` column is never assigned, whatever the payload carries.
The handler's `SurveyOut` omits `correct_answers`, so it defaults to
`None`. -/
def update_survey (st : Store) (survey_id : Nat) (survey_update : SurveyCreate) :
    Except HErr SurveyOut × Store :=
  match st.findSurvey survey_id with
  | none => (.error .notFound, st)
  | some survey =>
    (.ok { id := survey.id, title := survey_update.title,
           description := survey_update.description,
           questions := survey_update.questions, correct_answers := none },
     { st with surveys := st.surveys.map (fun s =>
         if s.id == survey_id then
           { s with title := survey_update.title,
                    description := survey_update.description,
                    questions := survey_update.questions }
         else s) })

/-- `GET /surveys/{survey_id}/responses` (`src/main.py` lines 203–214):
filters responses by `survey_id` (an SQL `NULL` foreign key never equals an
integer id) with no existence check on the survey. -/
def list_responses (st : Store) (survey_id : Nat) : List Response :=
  st.responses.filter (fun r => r.survey_id == some survey_id)

/-! ### Helper lemmas about Python equality on scalars -/

theorem pyEqV_refl_scalar (x : JValue) (hx : x.isScalar = true) : pyEqV x x = true := by
  cases x <;> simp_all [JValue.isScalar, pyEqV]

theorem pyEqV_symm_scalar (x y : JValue) (hx : x.isScalar = true) :
    pyEqV x y = pyEqV y x := by
  cases x <;> cases y <;> simp_all [JValue.isScalar, pyEqV, Bool.beq_comm]

theorem pyEqV_trans_scalar (x y z : JValue) (hy : y.isScalar = true)
    (hxy : pyEqV x y = true) (hyz : pyEqV y z = true) : pyEqV x z = true := by
  cases y with
  | null => cases x <;> cases z <;> simp_all [JValue.isScalar, pyEqV]
  | bool b => cases b <;> cases x <;> cases z <;> simp_all [JValue.isScalar, pyEqV]
  | num n =>
    cases x with
    | null => simp_all [JValue.isScalar, pyEqV]
    | str s => simp_all [JValue.isScalar, pyEqV]
    | arr xs => simp_all [JValue.isScalar, pyEqV]
    | obj o => simp_all [JValue.isScalar, pyEqV]
    | bool a =>
      cases z with
      | bool c => cases a <;> cases c <;> simp_all [JValue.isScalar, pyEqV]
      | num m => cases a <;> simp_all [JValue.isScalar, pyEqV]
      | null => simp_all [JValue.isScalar, pyEqV]
      | str s => simp_all [JValue.isScalar, pyEqV]
      | arr xs => simp_all [JValue.isScalar, pyEqV]
      | obj o => simp_all [JValue.isScalar, pyEqV]
    | num a =>
      cases z with
      | bool c => cases c <;> simp_all [JValue.isScalar, pyEqV]
      | num m => simp_all [JValue.isScalar, pyEqV]
      | null => simp_all [JValue.isScalar, pyEqV]
      | str s => simp_all [JValue.isScalar, pyEqV]
      | arr xs => simp_all [JValue.isScalar, pyEqV]
      | obj o => simp_all [JValue.isScalar, pyEqV]
  | str s => cases x <;> cases z <;> simp_all [JValue.isScalar, pyEqV]
  | arr xs => simp_all [JValue.isScalar]
  | obj kvs => simp_all [JValue.isScalar]

theorem pySetEq_eq_true_iff (a b : List JValue) :
    pySetEq a b = true ↔
      ((∀ x ∈ a, ∃ y ∈ b, pyEqV x y = true) ∧ (∀ y ∈ b, ∃ x ∈ a, pyEqV x y = true)) := by
  simp [pySetEq, List.all_eq_true, List.any_eq_true]

/-- For lists of scalar (hashable) values, Python set equality holds exactly
when the two lists have the same members up to Python `==` — the "same
distinct elements, ignoring order and duplicates" reading. -/
theorem pySetEq_iff_same_members (a b : List JValue)
    (ha : ∀ x ∈ a, x.isScalar = true) (hb : ∀ x ∈ b, x.isScalar = true) :
    pySetEq a b = true ↔
      ∀ x : JValue, (∃ y ∈ a, pyEqV x y = true) ↔ (∃ y ∈ b, pyEqV x y = true) := by
  rw [pySetEq_eq_true_iff]
  constructor
  · rintro ⟨h1, h2⟩ x
    constructor
    · rintro ⟨y, hy, hxy⟩
      obtain ⟨z, hz, hyz⟩ := h1 y hy
      exact ⟨z, hz, pyEqV_trans_scalar x y z (ha y hy) hxy hyz⟩
    · rintro ⟨y, hy, hxy⟩
      obtain ⟨w, hw, hwy⟩ := h2 y hy
      have hyw : pyEqV y w = true := by
        rw [← pyEqV_symm_scalar w y (ha w hw)]; exact hwy
      exact ⟨w, hw, pyEqV_trans_scalar x y w (hb y hy) hxy hyw⟩
  · intro h
    constructor
    · intro x hx
      exact (h x).mp ⟨x, hx, pyEqV_refl_scalar x (ha x hx)⟩
    · intro y hy
      obtain ⟨x, hx, hxy⟩ := (h y).mpr ⟨y, hy, pyEqV_refl_scalar y (hb y hy)⟩
      have : pyEqV x y = true := by
        rw [pyEqV_symm_scalar x y (ha x hx)]; exact hxy
      exact ⟨x, hx, this⟩

/-- Evaluation of the multi-select branch of `scoreEntry` when the submitted
value at `k` is a list (or the key is absent, in which case the default `[]`
applies) and all elements on both sides are scalars. -/
theorem scoreEntry_arr_eval (user : JObj) (k : String) (vs sub : JList)
    (hlook : user.findVal k = some (.arr sub) ∨ (user.findVal k = none ∧ sub = .nil))
    (hsub : ∀ v ∈ sub.toList, v.isScalar = true)
    (hvs : ∀ v ∈ vs.toList, v.isScalar = true) :
    scoreEntry (.obj user) k (.arr vs) = .ok (pySetEq sub.toList vs.toList) := by
  rcases hlook with h | ⟨h, rfl⟩ <;>
    simp [scoreEntry, pyGetD, h, pySet, JList.toList,
      List.all_eq_true.mpr hsub, List.all_eq_true.mpr hvs]

/-! ### Claim theorems -/

/-- C1: an answer-key entry whose expected value is a collection is counted
as a match iff the submitted value for that key (the empty collection when
the key is absent) has exactly the same distinct elements as the expected
collection, ignoring order and duplicates; consequently the result is
unchanged under any permutation or duplication of the submitted list's
elements. -/
theorem multiselect_entry_matches_iff_same_distinct_elements
    (k : String) (vs sub : JList) (user : JObj)
    (hvs : ∀ v ∈ vs.toList, v.isScalar = true)
    (hsub : ∀ v ∈ sub.toList, v.isScalar = true)
    (hlook : user.findVal k = some (.arr sub) ∨ (user.findVal k = none ∧ sub = .nil)) :
    (scoreEntry (.obj user) k (.arr vs) = .ok true ↔
      ∀ x : JValue, (∃ y ∈ sub.toList, pyEqV x y = true) ↔
        (∃ y ∈ vs.toList, pyEqV x y = true)) ∧
    (∀ (user2 : JObj) (sub2 : JList),
      (∀ v ∈ sub2.toList, v.isScalar = true) →
      (user2.findVal k = some (.arr sub2) ∨ (user2.findVal k = none ∧ sub2 = .nil)) →
      (∀ x : JValue, x ∈ sub2.toList ↔ x ∈ sub.toList) →
      scoreEntry (.obj user2) k (.arr vs) = scoreEntry (.obj user) k (.arr vs)) := by
  constructor
  · rw [scoreEntry_arr_eval user k vs sub hlook hsub hvs]
    simp only [Except.ok.injEq]
    exact pySetEq_iff_same_members _ _ hsub hvs
  · intro user2 sub2 hsub2 hlook2 hmem
    rw [scoreEntry_arr_eval user k vs sub hlook hsub hvs,
      scoreEntry_arr_eval user2 k vs sub2 hlook2 hsub2 hvs]
    congr 1
    rw [Bool.eq_iff_iff, pySetEq_eq_true_iff, pySetEq_eq_true_iff]
    constructor
    · rintro ⟨p, q⟩
      refine ⟨fun x hx => p x ((hmem x).mpr hx), fun y hy => ?_⟩
      obtain ⟨x, hx, e⟩ := q y hy
      exact ⟨x, (hmem x).mp hx, e⟩
    · rintro ⟨p, q⟩
      refine ⟨fun x hx => p x ((hmem x).mp hx), fun y hy => ?_⟩
      obtain ⟨x, hx, e⟩ := q y hy
      exact ⟨x, (hmem x).mpr hx, e⟩

theorem multiselect_entry_matches_iff_same_distinct_elements_witness :
    scoreEntry
      (.obj (.cons "q1" (.arr (.cons (.str "b") (.cons (.str "a") .nil))) .nil))
      "q1" (.arr (.cons (.str "a") (.cons (.str "b") .nil))) =
    scoreEntry (.obj (.cons "q1" (.arr (.cons (.str "a") (.cons (.str "b") .nil))) .nil))
      "q1" (.arr (.cons (.str "a") (.cons (.str "b") .nil))) :=
  (multiselect_entry_matches_iff_same_distinct_elements "q1"
      (.cons (.str "a") (.cons (.str "b") .nil))
      (.cons (.str "a") (.cons (.str "b") .nil))
      (.cons "q1" (.arr (.cons (.str "a") (.cons (.str "b") .nil))) .nil)
      (by decide) (by decide) (Or.inl rfl)).2
    (.cons "q1" (.arr (.cons (.str "b") (.cons (.str "a") .nil))) .nil)
    (.cons (.str "b") (.cons (.str "a") .nil))
    (by decide) (Or.inl rfl)
    (fun x => (List.Perm.swap (JValue.str "a") (JValue.str "b") []).mem_iff)

/-- C10: an answer-key entry whose expected value is the empty list is
counted as a match when the submitted mapping lacks the key entirely: the
absent key defaults to `[]` and `set([]) == set([])`. -/
theorem empty_expected_list_matches_missing_key (k : String) (user : JObj)
    (h : user.findVal k = none) :
    scoreEntry (.obj user) k (.arr .nil) = .ok true := by
  rw [scoreEntry_arr_eval user k .nil .nil (Or.inr ⟨h, rfl⟩)
    (by simp [JList.toList]) (by simp [JList.toList])]
  rfl

theorem empty_expected_list_matches_missing_key_witness :
    scoreEntry (.obj .nil) "q1" (.arr .nil) = .ok true :=
  empty_expected_list_matches_missing_key "q1" .nil rfl

/-- Whenever the scoring loop completes, `total` is the number of answer-key
entries. -/
theorem scoreLoop_total (user : JValue) :
    ∀ (key : JObj) (s t : Nat), scoreLoop user key = .ok (s, t) → t = key.length
  | .nil, s, t, h => by
    simp only [scoreLoop, Except.ok.injEq, Prod.mk.injEq] at h
    simp [JObj.length]
    omega
  | .cons k v rest, s, t, h => by
    rw [scoreLoop] at h
    cases he : scoreEntry user k v with
    | error e => rw [he] at h; simp at h
    | ok m =>
      rw [he] at h
      cases hr : scoreLoop user rest with
      | error e => rw [hr] at h; simp at h
      | ok p =>
        obtain ⟨s', t'⟩ := p
        rw [hr] at h
        simp at h
        have := scoreLoop_total user rest s' t' hr
        simp [JObj.length]
        omega

/-- C2 counterexample: with answer key `{"q1": null}` and an empty submitted
mapping, the code scores the entry as a match (`score == 1`) because
`user.get("q1")` yields `None` and `None == None`; the spec-side rule
("missing submitted key counts as a non-match") scores it as a non-match. -/
theorem scalar_missing_key_matches_null_expected :
    scoreAnswers (.obj (.cons "q1" .null .nil)) (.obj .nil) = .ok (1, 1) ∧
    specScalarMatch .nil "q1" .null = false :=
  ⟨rfl, rfl⟩

/-- C2 (amended): `total` is the number of answer-key entries whenever
scoring completes, and a scalar (non-list) entry matches iff Python `==`
holds between the submitted value — `None` when the key is absent — and the
expected value.  Python `==` identifies `True` with `1` and `False` with
`0`; consequently a missing submitted key is a non-match for every expected
value except `null`, which it matches. -/
theorem scalar_scoring_uses_python_equality (key user : JObj) :
    (∀ s t, scoreAnswers (.obj key) (.obj user) = .ok (s, t) → t = key.length) ∧
    (∀ (k : String) (v : JValue), v.isList = false →
      scoreEntry (.obj user) k v = .ok (pyEqV ((user.findVal k).getD .null) v)) ∧
    (∀ (k : String) (v : JValue), v.isList = false → user.findVal k = none →
      (scoreEntry (.obj user) k v = .ok true ↔ v = .null)) := by
  refine ⟨fun s t h => scoreLoop_total (.obj user) key s t h, ?_, ?_⟩
  · intro k v hv
    cases v <;> simp_all [JValue.isList, scoreEntry, pyGetD]
  · intro k v hv hk
    cases v <;> simp_all [JValue.isList, scoreEntry, pyGetD, pyEqV]

theorem scalar_scoring_uses_python_equality_witness :
    scoreEntry (.obj (.cons "q1" (.bool true) .nil)) "q1" (.num 1) =
      .ok (pyEqV ((JObj.findVal (.cons "q1" (.bool true) .nil) "q1").getD .null) (.num 1)) :=
  (scalar_scoring_uses_python_equality (.cons "q1" (.num 1) .nil)
    (.cons "q1" (.bool true) .nil)).2.1 "q1" (.num 1) rfl

/-- C3 counterexample: a survey created with the **empty** answer key `{}`
stores the non-empty text `"{}"`, so the truthiness test in `submit_response`
passes and scoring runs over zero entries: the result is `score = 0`,
`total = 0`, not `null`/`null` as claimed for an empty answer key. -/
theorem empty_answer_key_scores_zero_zero :
    (submit_response
      (create_survey { surveys := [], responses := [], nextSurveyId := 1, nextResponseId := 1 }
        { title := "t", description := none, questions := [],
          correct_answers := some (.obj .nil) }).2
      1 { answers := .obj .nil, student_name := none }).1 =
    .ok { id := 1, survey_id := some 1, answers := .obj .nil, student_name := none,
          score := some 0, total := some 0 } :=
  rfl

/-- C3 (amended): `submit_response` returns `score = null` and `total = null`
exactly when the survey's stored answer key is **absent**; when the answer
key is present but empty (`{}`), it returns `score = 0` and `total = 0`. -/
theorem scoring_skipped_iff_answer_key_absent (st : Store) (sid : Nat) (survey : Survey)
    (p : ResponseCreate) (hfind : st.findSurvey sid = some survey) :
    (survey.correct_answers = none →
      (submit_response st sid p).1 =
        .ok { id := st.nextResponseId, survey_id := some sid, answers := p.answers,
              student_name := p.student_name, score := none, total := none }) ∧
    (survey.correct_answers = some (.obj .nil) →
      (submit_response st sid p).1 =
        .ok { id := st.nextResponseId, survey_id := some sid, answers := p.answers,
              student_name := p.student_name, score := some 0, total := some 0 }) := by
  constructor <;> intro hca <;> simp [submit_response, hfind, hca, scoreAnswers, scoreLoop]

theorem scoring_skipped_iff_answer_key_absent_witness :
    (submit_response
      { surveys := [{ id := 1, title := "t", description := none, questions := [],
                      correct_answers := none }],
        responses := [], nextSurveyId := 2, nextResponseId := 1 }
      1 { answers := .null, student_name := none }).1 =
    .ok { id := 1, survey_id := some 1, answers := .null, student_name := none,
          score := none, total := none } :=
  (scoring_skipped_iff_answer_key_absent
    { surveys := [{ id := 1, title := "t", description := none, questions := [],
                    correct_answers := none }],
      responses := [], nextSurveyId := 2, nextResponseId := 1 }
    1 { id := 1, title := "t", description := none, questions := [], correct_answers := none }
    { answers := .null, student_name := none } rfl).1 rfl

/-- C4 counterexample: with answer key `{"q1": ["a"]}` and submitted answers
`{"q1": 5}`, the scoring code evaluates `set(5)` and raises `TypeError`
(`'int' object is not iterable`) — the claim that scoring never raises on a
malformed submitted value is false. -/
theorem scoring_raises_on_noniterable_submitted_value :
    scoreAnswers (.obj (.cons "q1" (.arr (.cons (.str "a") .nil)) .nil))
      (.obj (.cons "q1" (.num 5) .nil)) = .error .typeError :=
  rfl

/-- The scoring loop completes for every answer key whose collection entries
have scalar elements, when the submitted value at each collection key is
absent or a collection of scalars. -/
theorem scoreLoop_ok_of_wellformed (user : JObj) :
    ∀ key : JObj,
      (∀ kv ∈ key.toList, ∀ vs : JList, kv.2 = .arr vs →
        ∀ x ∈ vs.toList, x.isScalar = true) →
      (∀ kv ∈ key.toList, kv.2.isList = true →
        user.findVal kv.1 = none ∨
        ∃ ys : JList, user.findVal kv.1 = some (.arr ys) ∧
          ∀ y ∈ ys.toList, y.isScalar = true) →
      ∃ s t, scoreLoop (.obj user) key = .ok (s, t)
  | .nil, _, _ => ⟨0, 0, rfl⟩
  | .cons k v rest, hkey, huser => by
    have hone : ∃ m, scoreEntry (.obj user) k v = .ok m := by
      cases v with
      | arr vs =>
        have hv : ∀ x ∈ vs.toList, x.isScalar = true :=
          hkey (k, .arr vs) (by simp [JObj.toList]) vs rfl
        rcases huser (k, .arr vs) (by simp [JObj.toList]) (by simp [JValue.isList])
          with h | ⟨ys, h, hys⟩
        · exact ⟨_, scoreEntry_arr_eval user k vs .nil (Or.inr ⟨h, rfl⟩)
            (by simp [JList.toList]) hv⟩
        · exact ⟨_, scoreEntry_arr_eval user k vs ys (Or.inl h) hys hv⟩
      | null => exact ⟨_, rfl⟩
      | bool b => exact ⟨_, rfl⟩
      | num n => exact ⟨_, rfl⟩
      | str s => exact ⟨_, rfl⟩
      | obj o => exact ⟨_, rfl⟩
    obtain ⟨m, hm⟩ := hone
    obtain ⟨s, t, hst⟩ := scoreLoop_ok_of_wellformed user rest
      (fun kv hkv => hkey kv (by simp [JObj.toList]; exact Or.inr hkv))
      (fun kv hkv => huser kv (by simp [JObj.toList]; exact Or.inr hkv))
    exact ⟨if m then s + 1 else s, t + 1, by rw [scoreLoop, hm, hst]⟩

/-- C4 (amended): scoring never raises on **missing** submitted keys, and
completes without error provided every collection-valued answer-key entry
has scalar elements and the submitted value at such a key is either absent
or itself a collection of scalars; outside these conditions `set(...)` can
raise `TypeError` (and `.get` on a non-mapping raises `AttributeError`). -/
theorem scoring_total_on_wellformed_inputs (key user : JObj)
    (hkey : ∀ kv ∈ key.toList, ∀ vs : JList, kv.2 = .arr vs →
      ∀ x ∈ vs.toList, x.isScalar = true)
    (huser : ∀ kv ∈ key.toList, kv.2.isList = true →
      user.findVal kv.1 = none ∨
      ∃ ys : JList, user.findVal kv.1 = some (.arr ys) ∧
        ∀ y ∈ ys.toList, y.isScalar = true) :
    ∃ s t, scoreAnswers (.obj key) (.obj user) = .ok (s, t) :=
  scoreLoop_ok_of_wellformed user key hkey huser

theorem scoring_total_on_wellformed_inputs_witness :
    ∃ s t, scoreAnswers (.obj (.cons "q1" (.arr (.cons (.str "a") .nil)) .nil))
      (.obj .nil) = .ok (s, t) :=
  scoring_total_on_wellformed_inputs (.cons "q1" (.arr (.cons (.str "a") .nil)) .nil) .nil
    (by
      intro kv hkv vs hvs x hx
      simp [JObj.toList] at hkv
      subst hkv
      simp at hvs
      subst hvs
      simp [JList.toList] at hx
      subst hx
      rfl)
    (fun kv hkv h => Or.inl rfl)

/-- C5 counterexample: `submit_response` commits the response **before**
scoring, so when scoring raises (`set(5)` → `TypeError`) the request fails
but the response row is already persisted — the operation is not atomic. -/
theorem failed_submit_leaves_response_persisted :
    submit_response
      { surveys := [{ id := 1, title := "t", description := none, questions := [],
                      correct_answers :=
                        some (.obj (.cons "q1" (.arr (.cons (.str "a") .nil)) .nil)) }],
        responses := [], nextSurveyId := 2, nextResponseId := 1 }
      1 { answers := .obj (.cons "q1" (.num 5) .nil), student_name := none } =
    (.error (.pyError .typeError),
     { surveys := [{ id := 1, title := "t", description := none, questions := [],
                     correct_answers :=
                       some (.obj (.cons "q1" (.arr (.cons (.str "a") .nil)) .nil)) }],
       responses := [{ id := 1, survey_id := some 1,
                       answers := .obj (.cons "q1" (.num 5) .nil), student_name := none }],
       nextSurveyId := 2, nextResponseId := 2 }) :=
  rfl

/-- C5 (amended): a failed delete or update leaves the store unchanged, and a
`submit_response` that fails with `NotFound` leaves the store unchanged; but
a `submit_response` that fails inside scoring leaves the new response
persisted (it is committed before the score calculation). -/
theorem operation_atomicity_except_submit_scoring (st : Store) (sid : Nat)
    (p : ResponseCreate) (u : SurveyCreate) :
    (∀ e, (delete_survey st sid).1 = .error e → (delete_survey st sid).2 = st) ∧
    (∀ e, (update_survey st sid u).1 = .error e → (update_survey st sid u).2 = st) ∧
    ((submit_response st sid p).1 = .error .notFound → (submit_response st sid p).2 = st) ∧
    (∀ e, (submit_response st sid p).1 = .error (.pyError e) →
      (submit_response st sid p).2.responses =
        st.responses ++ [{ id := st.nextResponseId, survey_id := some sid,
                           answers := p.answers, student_name := p.student_name }]) := by
  refine ⟨?_, ?_, ?_, ?_⟩
  · intro e h
    cases hf : st.findSurvey sid <;> simp [delete_survey, hf] at h ⊢
  · intro e h
    cases hf : st.findSurvey sid <;> simp [update_survey, hf] at h ⊢
  · intro h
    cases hf : st.findSurvey sid with
    | none => simp [submit_response, hf]
    | some survey =>
      exfalso
      cases hca : survey.correct_answers with
      | none => simp [submit_response, hf, hca] at h
      | some ca =>
        cases hs : scoreAnswers ca p.answers with
        | error e2 => simp [submit_response, hf, hca, hs] at h
        | ok pr =>
          obtain ⟨s, t⟩ := pr
          simp [submit_response, hf, hca, hs] at h
  · intro e h
    cases hf : st.findSurvey sid with
    | none => simp [submit_response, hf] at h
    | some survey =>
      cases hca : survey.correct_answers with
      | none => simp [submit_response, hf, hca] at h
      | some ca =>
        cases hs : scoreAnswers ca p.answers with
        | error e2 => simp [submit_response, hf, hca, hs]
        | ok pr =>
          obtain ⟨s, t⟩ := pr
          simp [submit_response, hf, hca, hs] at h

theorem operation_atomicity_except_submit_scoring_witness :
    (submit_response
      { surveys := [{ id := 1, title := "t", description := none, questions := [],
                      correct_answers :=
                        some (.obj (.cons "q2" (.arr (.cons (.str "b") .nil)) .nil)) }],
        responses := [], nextSurveyId := 2, nextResponseId := 1 }
      1 { answers := .obj (.cons "q2" (.num 7) .nil), student_name := none }).2.responses =
    [] ++ [{ id := 1, survey_id := some 1,
             answers := .obj (.cons "q2" (.num 7) .nil), student_name := none }] :=
  (operation_atomicity_except_submit_scoring
    { surveys := [{ id := 1, title := "t", description := none, questions := [],
                    correct_answers :=
                      some (.obj (.cons "q2" (.arr (.cons (.str "b") .nil)) .nil)) }],
      responses := [], nextSurveyId := 2, nextResponseId := 1 }
    1 { answers := .obj (.cons "q2" (.num 7) .nil), student_name := none }
    { title := "x", description := none, questions := [],
      correct_answers := none }).2.2.2 .typeError rfl

/-- C6 counterexample: the `responses` relationship has no delete cascade,
so deleting a survey leaves its response rows in the store with their
`survey_id` set to `NULL` — they are disassociated, not deleted. -/
theorem delete_survey_orphans_responses :
    (delete_survey
      { surveys := [{ id := 1, title := "t", description := none, questions := [],
                      correct_answers := none }],
        responses := [{ id := 1, survey_id := some 1, answers := .null,
                        student_name := none }],
        nextSurveyId := 2, nextResponseId := 2 } 1).2.responses =
    [{ id := 1, survey_id := none, answers := .null, student_name := none }] :=
  rfl

/-- C6 (amended): for a stored survey id, `delete_survey` succeeds, removes
the survey, and sets the `survey_id` of that survey's responses to `NULL`
without deleting them (their count is unchanged); afterwards
`list_responses id` returns empty.  For an absent id it fails with
`NotFound` and changes nothing. -/
theorem delete_survey_disassociates_responses (st : Store) (sid : Nat) :
    ((∃ s ∈ st.surveys, s.id = sid) →
      (delete_survey st sid).1 = .ok () ∧
      (∀ s ∈ (delete_survey st sid).2.surveys, s.id ≠ sid) ∧
      (delete_survey st sid).2.responses.length = st.responses.length ∧
      list_responses (delete_survey st sid).2 sid = []) ∧
    (st.findSurvey sid = none → delete_survey st sid = (.error .notFound, st)) := by
  constructor
  · rintro ⟨s0, hs0, hid⟩
    obtain ⟨s1, hf⟩ : ∃ s1, st.findSurvey sid = some s1 := by
      rw [← Option.isSome_iff_exists, Store.findSurvey, List.find?_isSome]
      exact ⟨s0, hs0, by simp [hid]⟩
    refine ⟨by simp [delete_survey, hf], ?_, ?_, ?_⟩
    · intro s hs
      simp [delete_survey, hf, List.mem_filter] at hs
      exact hs.2
    · simp [delete_survey, hf]
    · simp only [delete_survey, hf, list_responses]
      rw [List.filter_eq_nil_iff]
      intro r hr
      rw [List.mem_map] at hr
      obtain ⟨r0, hr0, rfl⟩ := hr
      by_cases h : r0.survey_id == some sid <;> simp_all
  · intro h
    simp [delete_survey, h]

theorem delete_survey_disassociates_responses_witness :
    (delete_survey
      { surveys := [{ id := 3, title := "s", description := none, questions := [],
                      correct_answers := none }],
        responses := [{ id := 4, survey_id := some 3, answers := .null,
                        student_name := none }],
        nextSurveyId := 4, nextResponseId := 5 } 3).1 = .ok () ∧
    (∀ s ∈ (delete_survey
      { surveys := [{ id := 3, title := "s", description := none, questions := [],
                      correct_answers := none }],
        responses := [{ id := 4, survey_id := some 3, answers := .null,
                        student_name := none }],
        nextSurveyId := 4, nextResponseId := 5 } 3).2.surveys, s.id ≠ 3) ∧
    (delete_survey
      { surveys := [{ id := 3, title := "s", description := none, questions := [],
                      correct_answers := none }],
        responses := [{ id := 4, survey_id := some 3, answers := .null,
                        student_name := none }],
        nextSurveyId := 4, nextResponseId := 5 } 3).2.responses.length =
      [({ id := 4, survey_id := some 3, answers := .null,
          student_name := none } : Response)].length ∧
    list_responses (delete_survey
      { surveys := [{ id := 3, title := "s", description := none, questions := [],
                      correct_answers := none }],
        responses := [{ id := 4, survey_id := some 3, answers := .null,
                        student_name := none }],
        nextSurveyId := 4, nextResponseId := 5 } 3).2 3 = [] :=
  (delete_survey_disassociates_responses
    { surveys := [{ id := 3, title := "s", description := none, questions := [],
                    correct_answers := none }],
      responses := [{ id := 4, survey_id := some 3, answers := .null,
                      student_name := none }],
      nextSurveyId := 4, nextResponseId := 5 } 3).1
    ⟨{ id := 3, title := "s", description := none, questions := [],
       correct_answers := none }, by simp, rfl⟩

/-- C7 counterexample: the update endpoint's request schema is
`SurveyCreate`, which **does** have a `correct_answers` field, so the claim
that "the update schema excludes a correct_answers field" is false; the
handler nevertheless ignores it and leaves the stored key unchanged. -/
theorem update_schema_accepts_correct_answers_field :
    ({ title := "t2", description := none, questions := [],
       correct_answers := some (.str "x") } : SurveyCreate).correct_answers =
      some (.str "x") ∧
    (update_survey
      { surveys := [{ id := 1, title := "t", description := none, questions := [],
                      correct_answers := some (.str "orig") }],
        responses := [], nextSurveyId := 2, nextResponseId := 1 }
      1 { title := "t2", description := none, questions := [],
          correct_answers := some (.str "x") }).2.surveys =
    [{ id := 1, title := "t2", description := none, questions := [],
       correct_answers := some (.str "orig") }] :=
  ⟨rfl, rfl⟩

/-- C7 (amended): `update_survey` replaces title, description and questions
of the matching survey and never alters any stored answer key; however the
update schema (`SurveyCreate`, reused for `PUT`) does accept a
`correct_answers` field, which the handler silently ignores. -/
theorem update_survey_preserves_answer_key (st : Store) (sid : Nat) (p : SurveyCreate) :
    ((update_survey st sid p).2.surveys.map (fun s => (s.id, s.correct_answers)) =
      st.surveys.map (fun s => (s.id, s.correct_answers))) ∧
    (∀ survey, st.findSurvey sid = some survey →
      (update_survey st sid p).1 =
        .ok { id := survey.id, title := p.title, description := p.description,
              questions := p.questions, correct_answers := none } ∧
      ∀ s ∈ (update_survey st sid p).2.surveys, s.id = sid →
        s.title = p.title ∧ s.description = p.description ∧ s.questions = p.questions) := by
  constructor
  · cases hf : st.findSurvey sid with
    | none => simp [update_survey, hf]
    | some survey =>
      simp only [update_survey, hf, List.map_map]
      apply List.map_congr_left
      intro s hs
      by_cases h : s.id = sid <;> simp [h]
  · intro survey hf
    refine ⟨by simp [update_survey, hf], ?_⟩
    intro s hs hid
    simp only [update_survey, hf, List.mem_map] at hs
    obtain ⟨s0, hs0, rfl⟩ := hs
    by_cases h : s0.id == sid <;> simp_all

theorem update_survey_preserves_answer_key_witness :
    (update_survey
      { surveys := [{ id := 2, title := "old", description := some "d", questions := [],
                      correct_answers := some (.obj (.cons "q1" (.str "a") .nil)) }],
        responses := [], nextSurveyId := 3, nextResponseId := 1 }
      2 { title := "new", description := none,
          questions := [{ text := "q", type := "text", options := none }],
          correct_answers := some (.str "ignored") }).1 =
    .ok { id := 2, title := "new", description := none,
          questions := [{ text := "q", type := "text", options := none }],
          correct_answers := none } :=
  ((update_survey_preserves_answer_key
    { surveys := [{ id := 2, title := "old", description := some "d", questions := [],
                    correct_answers := some (.obj (.cons "q1" (.str "a") .nil)) }],
      responses := [], nextSurveyId := 3, nextResponseId := 1 }
    2 { title := "new", description := none,
        questions := [{ text := "q", type := "text", options := none }],
        correct_answers := some (.str "ignored") }).2
    { id := 2, title := "old", description := some "d", questions := [],
      correct_answers := some (.obj (.cons "q1" (.str "a") .nil)) } rfl).1

/-- C8: submitting a response to a survey id absent from the store fails with
`NotFound` and leaves the store — in particular the responses table —
completely unchanged (the existence check precedes the insert). -/
theorem submit_to_missing_survey_fails_without_write (st : Store) (sid : Nat)
    (p : ResponseCreate) (h : st.findSurvey sid = none) :
    submit_response st sid p = (.error .notFound, st) := by
  simp [submit_response, h]

theorem submit_to_missing_survey_fails_without_write_witness :
    submit_response { surveys := [], responses := [], nextSurveyId := 1, nextResponseId := 1 }
      1 { answers := .null, student_name := none } =
    (.error .notFound,
     { surveys := [], responses := [], nextSurveyId := 1, nextResponseId := 1 }) :=
  submit_to_missing_survey_fails_without_write
    { surveys := [], responses := [], nextSurveyId := 1, nextResponseId := 1 }
    1 { answers := .null, student_name := none } rfl

/-- `List.find?` skips a prefix on which the predicate is everywhere false. -/
theorem find?_append_left_none {α : Type} (p : α → Bool) (l1 l2 : List α)
    (h : ∀ a ∈ l1, p a = false) : (l1 ++ l2).find? p = l2.find? p := by
  have h1 : l1.find? p = none := by
    rw [List.find?_eq_none]
    intro x hx
    simp [h x hx]
  simp [List.find?_append, h1]

/-- C9: for every creation input, reading back the id assigned by
`create_survey` returns a survey equal to the one `create_survey` returned
(create/get round-trip).  The hypothesis states that the autoincrement
counter is fresh, which the store maintains by construction. -/
theorem create_get_round_trip (st : Store) (x : SurveyCreate)
    (h : ∀ s ∈ st.surveys, s.id ≠ st.nextSurveyId) :
    get_survey (create_survey st x).2 (create_survey st x).1.id =
      .ok (create_survey st x).1 := by
  have hp : ∀ s ∈ st.surveys, (fun s : Survey => s.id == st.nextSurveyId) s = false := by
    intro s hs
    simp [h s hs]
  simp only [create_survey, get_survey, Store.findSurvey, Survey.toOut]
  rw [find?_append_left_none _ _ _ hp]
  simp [List.find?]

theorem create_get_round_trip_witness :
    get_survey
      (create_survey { surveys := [], responses := [], nextSurveyId := 1, nextResponseId := 1 }
        { title := "t", description := some "d",
          questions := [{ text := "q", type := "radio", options := some ["a", "b"] }],
          correct_answers := some (.obj (.cons "0" (.str "a") .nil)) }).2
      (create_survey { surveys := [], responses := [], nextSurveyId := 1, nextResponseId := 1 }
        { title := "t", description := some "d",
          questions := [{ text := "q", type := "radio", options := some ["a", "b"] }],
          correct_answers := some (.obj (.cons "0" (.str "a") .nil)) }).1.id =
    .ok (create_survey { surveys := [], responses := [], nextSurveyId := 1, nextResponseId := 1 }
      { title := "t", description := some "d",
        questions := [{ text := "q", type := "radio", options := some ["a", "b"] }],
        correct_answers := some (.obj (.cons "0" (.str "a") .nil)) }).1 :=
  create_get_round_trip
    { surveys := [], responses := [], nextSurveyId := 1, nextResponseId := 1 }
    { title := "t", description := some "d",
      questions := [{ text := "q", type := "radio", options := some ["a", "b"] }],
      correct_answers := some (.obj (.cons "0" (.str "a") .nil)) }
    (by simp)

end AlmaMater
